import Mathlib

/-!
# Verification of the `BasicGraphicsScene` synchronization engine

A shallow embedding of the node-editor scene synchronization engine
(`src/include/QtNodes/internal/BasicGraphicsScene.hpp`).  The header declares
the data members (the two graphical-object registries `_nodeGraphicsObjects`
and `_connectionGraphicsObjects`, the single draft-connection slot
`_draftConnection`, and the `_orientation` flag) and the notification
handlers; the implementation file `BasicGraphicsScene.cpp` is not part of the
sources, so the handler bodies are modelled from the specification, as noted
on each definition.

The graphical objects themselves (rendering, geometry, painting) are outside
the synchronization core; a registry is therefore embedded as the list of
keys that currently own a live graphical object, and the draft slot as the
list of currently-live draft connection objects.
-/

namespace NodeEditor

/-- Opaque unique identifier for a node (`NodeId`). -/
abbrev NodeId := Nat

/-- Ordinal position among ports of one type on one node (`PortIndex`). -/
abbrev PortIndex := Nat

/-- Composite key of a directed edge from an Out port of one node to an In
port of another (`ConnectionId`); equality is structural over the four
fields. -/
structure ConnectionId where
  outNodeId : NodeId
  outPortIndex : PortIndex
  inNodeId : NodeId
  inPortIndex : PortIndex
deriving DecidableEq, Repr

/-- Layout direction flag (`Qt::Orientation`), two values. -/
inductive Orientation where
  | Horizontal
  | Vertical
deriving DecidableEq, Repr

/-- The scene state visible to the synchronization engine: the two
graphical-object registries (`_nodeGraphicsObjects`,
`_connectionGraphicsObjects`), the draft-connection slot
(`_draftConnection`), the `_orientation` flag, and a count of reported
protocol inconsistencies (the log sink for the skip-and-report failure
policy). A registry is represented by the list of ids currently holding a
graphical object; the draft slot by the list of live draft objects, each
identified by the (possibly incomplete) `ConnectionId` it was created
with. -/
structure Scene where
  nodeObjs : List NodeId
  connObjs : List ConnectionId
  drafts : List ConnectionId
  orientation : Orientation
  inconsistencies : Nat
deriving DecidableEq, Repr

/-- The empty scene: both registries empty, no draft. -/
def emptyScene : Scene :=
  { nodeObjs := [], connObjs := [], drafts := [], orientation := .Horizontal,
    inconsistencies := 0 }

/-- Whether connection id `c` references node `nodeId` on either endpoint. -/
def connectionTouches (nodeId : NodeId) (c : ConnectionId) : Prop :=
  c.outNodeId = nodeId ∨ c.inNodeId = nodeId

instance (nodeId : NodeId) (c : ConnectionId) :
    Decidable (connectionTouches nodeId c) := by
  unfold connectionTouches; infer_instance

/-- Whether a draft created with (possibly incomplete) id `d` was reaching
toward the confirmed connection id `c`: its bound endpoint coincides with one
endpoint of `c`. -/
def draftMatches (d c : ConnectionId) : Prop :=
  (d.outNodeId = c.outNodeId ∧ d.outPortIndex = c.outPortIndex)
    ∨ (d.inNodeId = c.inNodeId ∧ d.inPortIndex = c.inPortIndex)

instance (d c : ConnectionId) : Decidable (draftMatches d c) := by
  unfold draftMatches; infer_instance

/-- Modelled from the spec: the body of `BasicGraphicsScene::onNodeCreated`
(declared in the header, `BasicGraphicsScene.cpp` absent from the sources).
"Node created (id): if not already present, construct node graphical object,
insert into registry, position it per model-reported location.  Idempotent:
duplicate notification for existing id is a no-op."  Positioning is geometry,
outside the embedded state. -/
def onNodeCreated (nodeId : NodeId) (s : Scene) : Scene :=
  if nodeId ∈ s.nodeObjs then s
  else { s with nodeObjs := nodeId :: s.nodeObjs }

/-- Modelled from the spec: the body of `BasicGraphicsScene::onNodeDeleted`
(`BasicGraphicsScene.cpp` absent from the sources).  "Node deleted (id):
erase node graphical object; cascade-erase every connection graphical object
whose ConnectionId references id on either end.  Idempotent: deleting an
absent id is a no-op."  Registry erase is no-op-safe when the key is
absent. -/
def onNodeDeleted (nodeId : NodeId) (s : Scene) : Scene :=
  { s with
    nodeObjs := s.nodeObjs.filter (fun n => n ≠ nodeId)
    connObjs := s.connObjs.filter (fun c => ¬ connectionTouches nodeId c) }

/-- Modelled from the spec: the body of
`BasicGraphicsScene::onConnectionCreated` (`BasicGraphicsScene.cpp` absent
from the sources).  "Connection created (id): if not already present, and
both endpoint nodes already have graphical objects, construct connection
graphical object and insert.  If an endpoint node graphical object is
missing, skip with a logged inconsistency."  On successful construction the
promotion rule of the draft-connection manager applies: a draft whose
identity matches the confirmed connection is discarded. -/
def onConnectionCreated (cid : ConnectionId) (s : Scene) : Scene :=
  if cid ∈ s.connObjs then s
  else if cid.outNodeId ∈ s.nodeObjs ∧ cid.inNodeId ∈ s.nodeObjs then
    { s with
      connObjs := cid :: s.connObjs
      drafts := s.drafts.filter (fun d => ¬ draftMatches d cid) }
  else { s with inconsistencies := s.inconsistencies + 1 }

/-- Modelled from the spec: the body of
`BasicGraphicsScene::onConnectionDeleted` (`BasicGraphicsScene.cpp` absent
from the sources).  "Connection deleted (id): erase connection graphical
object.  Idempotent."  The redraw of the endpoint nodes is geometry, outside
the embedded state. -/
def onConnectionDeleted (cid : ConnectionId) (s : Scene) : Scene :=
  { s with connObjs := s.connObjs.filter (fun c => c ≠ cid) }

/-- Modelled from the spec: the body of
`BasicGraphicsScene::makeDraftConnection` (`BasicGraphicsScene.cpp` absent
from the sources).  "If a draft already exists, discard it first
(single-draft invariant).  Constructs a connection graphical object bound to
the known endpoint ... Returns a reference to the new draft."  The returned
reference is the single element left in the draft slot. -/
def makeDraftConnection (newConnectionId : ConnectionId) (s : Scene) : Scene :=
  { s with drafts := [newConnectionId] }

/-- Modelled from the spec: the body of
`BasicGraphicsScene::resetDraftConnection` (`BasicGraphicsScene.cpp` absent
from the sources).  "Destroys the current draft, if any; safe to call with
none present." -/
def resetDraftConnection (s : Scene) : Scene :=
  { s with drafts := [] }

/-- Modelled from the spec: the body of `BasicGraphicsScene::clearScene`
(`BasicGraphicsScene.cpp` absent from the sources).  "clear(): destroys all
node and connection graphical objects; used for full scene reset." -/
def clearScene (s : Scene) : Scene :=
  { s with nodeObjs := [], connObjs := [] }

/-- The lookup `BasicGraphicsScene::nodeGraphicsObject(NodeId)`: returns the
graphical object for the id, or the not-found sentinel (`nullptr`, embedded
as `none`) when absent.  A graphical object is represented by its key.  The
lookup is a `const`-style query: it takes the scene and returns only the
optional result, so it cannot change the registry state. -/
def nodeGraphicsObject (s : Scene) (nodeId : NodeId) : Option NodeId :=
  s.nodeObjs.find? (fun n => n = nodeId)

/-- The lookup `BasicGraphicsScene::connectionGraphicsObject(ConnectionId)`:
returns the graphical object for the id, or `none` (`nullptr`) when
absent. -/
def connectionGraphicsObject (s : Scene) (cid : ConnectionId) :
    Option ConnectionId :=
  s.connObjs.find? (fun c => c = cid)

/-- Accessor `orientation() const { return _orientation; }` (inline in the
header): reads the `_orientation` member and changes nothing. -/
def sceneOrientation (s : Scene) : Orientation :=
  s.orientation

/-- Modelled from the spec: the body of
`BasicGraphicsScene::setOrientation` (`BasicGraphicsScene.cpp` absent from
the sources).  "Changing it invalidates geometry for all existing graphical
objects; the engine must trigger a full redraw pass (not a rebuild —
identities are unaffected)."  Only the flag is written; the redraw is
geometry, outside the embedded state. -/
def setOrientation (o : Orientation) (s : Scene) : Scene :=
  { s with orientation := o }

/-- The external graph model (`AbstractGraphModel`), at the interface the
engine consumes for traversal: the enumeration of all node ids, and the set
of connections discoverable by scanning Out ports. -/
structure GraphModel where
  nodeIds : List NodeId
  connections : List ConnectionId
deriving Repr

/-- Modelled from the spec: the body of
`BasicGraphicsScene::traverseGraphAndPopulateGraphicsObjects`
(`BasicGraphicsScene.cpp` absent from the sources).  The walk visits every
node in model enumeration order, constructing each node's graphical object at
most once (guarded by the registry's already-present check of the create
handler); each connection discovered by scanning a node's Out ports is
materialized through the guarded connection-create handler, once every
endpoint node object exists ("its In-side endpoint node is guaranteed already
visited-or-about-to-be-visited because every node is eventually visited
regardless of traversal order"). -/
def traverseGraphAndPopulateGraphicsObjects (m : GraphModel) (s : Scene) :
    Scene :=
  let afterNodes := m.nodeIds.foldl (fun acc n => onNodeCreated n acc) s
  m.nodeIds.foldl
    (fun acc n =>
      (m.connections.filter (fun c => c.outNodeId = n)).foldl
        (fun acc2 c => onConnectionCreated c acc2) acc)
    afterNodes

/-- Modelled from the spec: the body of `BasicGraphicsScene::onModelReset`
(`BasicGraphicsScene.cpp` absent from the sources).  "Full model reset:
clear registry entirely, then re-run full traversal-based population." -/
def onModelReset (m : GraphModel) (s : Scene) : Scene :=
  traverseGraphAndPopulateGraphicsObjects m (clearScene s)

/-- One externally triggered transition of the synchronization engine: a
model-change notification, a user draft interaction, a scene reset or an
orientation change. -/
inductive SceneEvent where
  | nodeCreated (nodeId : NodeId)
  | nodeDeleted (nodeId : NodeId)
  | connectionCreated (cid : ConnectionId)
  | connectionDeleted (cid : ConnectionId)
  | makeDraft (cid : ConnectionId)
  | resetDraft
  | clear
  | setOrient (o : Orientation)
  | modelReset (m : GraphModel)

/-- Apply one event to the scene state. -/
def applyEvent (e : SceneEvent) (s : Scene) : Scene :=
  match e with
  | .nodeCreated nodeId => onNodeCreated nodeId s
  | .nodeDeleted nodeId => onNodeDeleted nodeId s
  | .connectionCreated cid => onConnectionCreated cid s
  | .connectionDeleted cid => onConnectionDeleted cid s
  | .makeDraft cid => makeDraftConnection cid s
  | .resetDraft => resetDraftConnection s
  | .clear => clearScene s
  | .setOrient o => setOrientation o s
  | .modelReset m => onModelReset m s

/-- Run a sequence of events, in delivery order, from a scene state. -/
def runEvents (es : List SceneEvent) (s : Scene) : Scene :=
  es.foldl (fun acc e => applyEvent e acc) s

/-- No connection graphical object dangles: every registered connection's
endpoint nodes hold graphical objects. -/
def NoDangling (s : Scene) : Prop :=
  ∀ c ∈ s.connObjs, c.outNodeId ∈ s.nodeObjs ∧ c.inNodeId ∈ s.nodeObjs

/-- The scene representation invariant: each registry holds at most one
graphical object per id, at most one draft connection exists, and no
connection dangles on a missing node. -/
def Invariant (s : Scene) : Prop :=
  s.nodeObjs.Nodup ∧ s.connObjs.Nodup ∧ s.drafts.length ≤ 1 ∧ NoDangling s

instance (s : Scene) : Decidable (NoDangling s) := by
  unfold NoDangling; infer_instance

instance (s : Scene) : Decidable (Invariant s) := by
  unfold Invariant; infer_instance

/-! ## Invariant preservation -/

theorem onNodeCreated_invariant (nodeId : NodeId) (s : Scene)
    (h : Invariant s) : Invariant (onNodeCreated nodeId s) := by
  obtain ⟨hn, hc, hd, hdang⟩ := h
  unfold onNodeCreated
  by_cases hmem : nodeId ∈ s.nodeObjs
  · simp [hmem]; exact ⟨hn, hc, hd, hdang⟩
  · simp only [hmem, if_false]
    refine ⟨List.nodup_cons.mpr ⟨hmem, hn⟩, hc, hd, ?_⟩
    intro c hcmem
    exact ⟨List.mem_cons_of_mem _ (hdang c hcmem).1,
      List.mem_cons_of_mem _ (hdang c hcmem).2⟩

theorem onNodeDeleted_invariant (nodeId : NodeId) (s : Scene)
    (h : Invariant s) : Invariant (onNodeDeleted nodeId s) := by
  obtain ⟨hn, hc, hd, hdang⟩ := h
  refine ⟨hn.filter _, hc.filter _, hd, ?_⟩
  intro c hcmem
  simp only [onNodeDeleted, List.mem_filter, decide_eq_true_eq] at hcmem ⊢
  obtain ⟨hcmem, hnt⟩ := hcmem
  rw [connectionTouches] at hnt
  push_neg at hnt
  exact ⟨⟨(hdang c hcmem).1, by simpa using hnt.1⟩,
    ⟨(hdang c hcmem).2, by simpa using hnt.2⟩⟩

theorem onConnectionCreated_invariant (cid : ConnectionId) (s : Scene)
    (h : Invariant s) : Invariant (onConnectionCreated cid s) := by
  obtain ⟨hn, hc, hd, hdang⟩ := h
  unfold onConnectionCreated
  by_cases hmem : cid ∈ s.connObjs
  · simp [hmem]; exact ⟨hn, hc, hd, hdang⟩
  · by_cases hend : cid.outNodeId ∈ s.nodeObjs ∧ cid.inNodeId ∈ s.nodeObjs
    · simp only [hmem, if_false, hend, if_true]
      refine ⟨hn, List.nodup_cons.mpr ⟨hmem, hc⟩,
        le_trans (List.length_filter_le _ _) hd, ?_⟩
      intro c hcmem
      rcases List.mem_cons.mp hcmem with rfl | hcmem
      · exact hend
      · exact hdang c hcmem
    · simp only [hmem, if_false, hend, if_false]
      exact ⟨hn, hc, hd, hdang⟩

theorem onConnectionDeleted_invariant (cid : ConnectionId) (s : Scene)
    (h : Invariant s) : Invariant (onConnectionDeleted cid s) := by
  obtain ⟨hn, hc, hd, hdang⟩ := h
  refine ⟨hn, hc.filter _, hd, ?_⟩
  intro c hcmem
  simp only [onConnectionDeleted, List.mem_filter] at hcmem
  exact hdang c hcmem.1

theorem makeDraftConnection_invariant (cid : ConnectionId) (s : Scene)
    (h : Invariant s) : Invariant (makeDraftConnection cid s) := by
  obtain ⟨hn, hc, _, hdang⟩ := h
  exact ⟨hn, hc, by simp [makeDraftConnection], hdang⟩

theorem resetDraftConnection_invariant (s : Scene)
    (h : Invariant s) : Invariant (resetDraftConnection s) := by
  obtain ⟨hn, hc, _, hdang⟩ := h
  exact ⟨hn, hc, by simp [resetDraftConnection], hdang⟩

theorem clearScene_invariant (s : Scene)
    (h : Invariant s) : Invariant (clearScene s) := by
  obtain ⟨_, _, hd, _⟩ := h
  refine ⟨List.nodup_nil, List.nodup_nil, hd, ?_⟩
  intro c hcmem
  simp [clearScene] at hcmem

theorem setOrientation_invariant (o : Orientation) (s : Scene)
    (h : Invariant s) : Invariant (setOrientation o s) := h

/-- A property preserved by a step function is preserved by its fold. -/
theorem foldl_preserves {α : Type} (P : Scene → Prop) (f : α → Scene → Scene)
    (hf : ∀ x s, P s → P (f x s)) :
    ∀ (l : List α) (s : Scene), P s → P (l.foldl (fun acc x => f x acc) s) := by
  intro l
  induction l with
  | nil => intro s hs; exact hs
  | cons x xs ih => intro s hs; exact ih _ (hf x s hs)

theorem traverse_invariant (m : GraphModel) (s : Scene)
    (h : Invariant s) :
    Invariant (traverseGraphAndPopulateGraphicsObjects m s) := by
  unfold traverseGraphAndPopulateGraphicsObjects
  have h1 := foldl_preserves Invariant onNodeCreated onNodeCreated_invariant
    m.nodeIds s h
  exact foldl_preserves Invariant
    (fun n acc =>
      (m.connections.filter (fun c => c.outNodeId = n)).foldl
        (fun acc2 c => onConnectionCreated c acc2) acc)
    (fun n s hs =>
      foldl_preserves Invariant onConnectionCreated
        onConnectionCreated_invariant _ s hs)
    m.nodeIds _ h1

theorem applyEvent_invariant (e : SceneEvent) (s : Scene)
    (h : Invariant s) : Invariant (applyEvent e s) := by
  cases e with
  | nodeCreated nodeId => exact onNodeCreated_invariant nodeId s h
  | nodeDeleted nodeId => exact onNodeDeleted_invariant nodeId s h
  | connectionCreated cid => exact onConnectionCreated_invariant cid s h
  | connectionDeleted cid => exact onConnectionDeleted_invariant cid s h
  | makeDraft cid => exact makeDraftConnection_invariant cid s h
  | resetDraft => exact resetDraftConnection_invariant s h
  | clear => exact clearScene_invariant s h
  | setOrient o => exact setOrientation_invariant o s h
  | modelReset m => exact traverse_invariant m _ (clearScene_invariant s h)

theorem emptyScene_invariant : Invariant emptyScene := by
  refine ⟨List.nodup_nil, List.nodup_nil, by simp [emptyScene], ?_⟩
  intro c hcmem
  simp [emptyScene] at hcmem

theorem runEvents_invariant (es : List SceneEvent) :
    Invariant (runEvents es emptyScene) :=
  foldl_preserves Invariant applyEvent applyEvent_invariant es emptyScene
    emptyScene_invariant

/-- Splitting a list by a Boolean predicate preserves its length. -/
theorem length_filter_not_add_length_filter {α : Type} (p : α → Bool)
    (l : List α) :
    (l.filter (fun a => !p a)).length + (l.filter p).length = l.length := by
  induction l with
  | nil => rfl
  | cons x xs ih => cases h : p x <;> simp [List.filter_cons, h, ← ih] <;> omega

/-! ## Claims -/

/-- Claim C1: for every sequence of node/connection create and delete
notifications delivered to the scene, and for every id, the registry holds at
most one graphical object for that id at any time; a create notification for
an id already present (`onNodeCreated` / `onConnectionCreated`) is a no-op,
and a delete notification for an absent id (`onNodeDeleted` /
`onConnectionDeleted`) is a no-op. -/
theorem claim_C1_registry_at_most_one (es : List SceneEvent) :
    (∀ nodeId : NodeId, (runEvents es emptyScene).nodeObjs.count nodeId ≤ 1) ∧
    (∀ cid : ConnectionId, (runEvents es emptyScene).connObjs.count cid ≤ 1) ∧
    (∀ nodeId : NodeId, nodeId ∈ (runEvents es emptyScene).nodeObjs →
      onNodeCreated nodeId (runEvents es emptyScene) = runEvents es emptyScene) ∧
    (∀ cid : ConnectionId, cid ∈ (runEvents es emptyScene).connObjs →
      onConnectionCreated cid (runEvents es emptyScene) = runEvents es emptyScene) ∧
    (∀ nodeId : NodeId, nodeId ∉ (runEvents es emptyScene).nodeObjs →
      onNodeDeleted nodeId (runEvents es emptyScene) = runEvents es emptyScene) ∧
    (∀ cid : ConnectionId, cid ∉ (runEvents es emptyScene).connObjs →
      onConnectionDeleted cid (runEvents es emptyScene) = runEvents es emptyScene) := by
  obtain ⟨hn, hc, hd, hdang⟩ := runEvents_invariant es
  refine ⟨fun nodeId => List.nodup_iff_count_le_one.mp hn nodeId,
    fun cid => List.nodup_iff_count_le_one.mp hc cid, ?_, ?_, ?_, ?_⟩
  · intro nodeId hmem
    simp [onNodeCreated, hmem]
  · intro cid hmem
    simp [onConnectionCreated, hmem]
  · intro nodeId hmem
    unfold onNodeDeleted
    have h1 : (runEvents es emptyScene).nodeObjs.filter
        (fun n => n ≠ nodeId) = (runEvents es emptyScene).nodeObjs := by
      apply List.filter_eq_self.mpr
      intro a ha
      simp only [ne_eq, decide_not, Bool.not_eq_eq_eq_not, Bool.not_true,
        decide_eq_false_iff_not]
      rintro rfl
      exact hmem ha
    have h2 : (runEvents es emptyScene).connObjs.filter
        (fun c => ¬ connectionTouches nodeId c)
          = (runEvents es emptyScene).connObjs := by
      apply List.filter_eq_self.mpr
      intro c hcmem
      simp only [decide_eq_true_eq]
      intro htouch
      rcases htouch with hout | hin
      · exact hmem (hout ▸ (hdang c hcmem).1)
      · exact hmem (hin ▸ (hdang c hcmem).2)
    rw [h1, h2]
  · intro cid hmem
    unfold onConnectionDeleted
    have h1 : (runEvents es emptyScene).connObjs.filter
        (fun c => c ≠ cid) = (runEvents es emptyScene).connObjs := by
      apply List.filter_eq_self.mpr
      intro c hcmem
      simp only [ne_eq, decide_not, Bool.not_eq_eq_eq_not, Bool.not_true,
        decide_eq_false_iff_not]
      rintro rfl
      exact hmem hcmem
    rw [h1]

/-- Claim C1, witnessed at concrete inputs: after creating node 0 and the
self-loop connection, the duplicate-create and absent-delete notifications
are no-ops and the counts are at most one. -/
theorem claim_C1_registry_at_most_one_witness :
    (runEvents [SceneEvent.nodeCreated 0,
      SceneEvent.connectionCreated ⟨0, 0, 0, 0⟩] emptyScene).nodeObjs.count 0 ≤ 1
    ∧ onNodeCreated 0
        (runEvents [SceneEvent.nodeCreated 0,
          SceneEvent.connectionCreated ⟨0, 0, 0, 0⟩] emptyScene)
        = runEvents [SceneEvent.nodeCreated 0,
            SceneEvent.connectionCreated ⟨0, 0, 0, 0⟩] emptyScene
    ∧ onNodeDeleted 5
        (runEvents [SceneEvent.nodeCreated 0,
          SceneEvent.connectionCreated ⟨0, 0, 0, 0⟩] emptyScene)
        = runEvents [SceneEvent.nodeCreated 0,
            SceneEvent.connectionCreated ⟨0, 0, 0, 0⟩] emptyScene
    ∧ onConnectionDeleted ⟨1, 1, 1, 1⟩
        (runEvents [SceneEvent.nodeCreated 0,
          SceneEvent.connectionCreated ⟨0, 0, 0, 0⟩] emptyScene)
        = runEvents [SceneEvent.nodeCreated 0,
            SceneEvent.connectionCreated ⟨0, 0, 0, 0⟩] emptyScene :=
  ⟨(claim_C1_registry_at_most_one [SceneEvent.nodeCreated 0,
      SceneEvent.connectionCreated ⟨0, 0, 0, 0⟩]).1 0,
    (claim_C1_registry_at_most_one [SceneEvent.nodeCreated 0,
      SceneEvent.connectionCreated ⟨0, 0, 0, 0⟩]).2.2.1 0 (by decide),
    (claim_C1_registry_at_most_one [SceneEvent.nodeCreated 0,
      SceneEvent.connectionCreated ⟨0, 0, 0, 0⟩]).2.2.2.2.1 5 (by decide),
    (claim_C1_registry_at_most_one [SceneEvent.nodeCreated 0,
      SceneEvent.connectionCreated ⟨0, 0, 0, 0⟩]).2.2.2.2.2 ⟨1, 1, 1, 1⟩
      (by decide)⟩

/-- Claim C2: processing a node-deleted notification removes the node's
graphical object and exactly the connection graphical objects touching that
node on either endpoint — membership in each registry after the call is
characterized exactly, and the number of removed connection objects equals
the number of registered connections touching the node. -/
theorem claim_C2_cascade_delete (s : Scene) (nodeId : NodeId) :
    (∀ c : ConnectionId, c ∈ (onNodeDeleted nodeId s).connObjs ↔
      c ∈ s.connObjs ∧ ¬ connectionTouches nodeId c) ∧
    (∀ n : NodeId, n ∈ (onNodeDeleted nodeId s).nodeObjs ↔
      n ∈ s.nodeObjs ∧ n ≠ nodeId) ∧
    (onNodeDeleted nodeId s).connObjs.length
        + s.connObjs.countP (fun c => connectionTouches nodeId c)
      = s.connObjs.length := by
  refine ⟨?_, ?_, ?_⟩
  · intro c
    simp [onNodeDeleted, List.mem_filter]
  · intro n
    simp [onNodeDeleted, List.mem_filter]
  · simp only [onNodeDeleted, List.countP_eq_length_filter]
    have h := length_filter_not_add_length_filter
      (fun c => decide (connectionTouches nodeId c)) s.connObjs
    simpa [decide_not] using h

/-- Claim C3: at every reachable state of the scene at most one draft
connection exists, and `makeDraftConnection` always leaves exactly the newly
constructed draft in the slot — any prior draft is destroyed. -/
theorem claim_C3_single_draft :
    (∀ es : List SceneEvent, (runEvents es emptyScene).drafts.length ≤ 1) ∧
    (∀ (s : Scene) (cid : ConnectionId),
      (makeDraftConnection cid s).drafts = [cid]) := by
  constructor
  · intro es
    exact (runEvents_invariant es).2.2.1
  · intro s cid
    rfl

/-- Claim C4: full traversal-based population of an empty scene from a model
with nodes {0, 1, 2} and connections {0.out0→1.in0, 1.out0→2.in0} produces
exactly 3 node graphical objects and exactly 2 connection graphical objects,
for every order in which the model enumerates its nodes. -/
theorem claim_C4_traversal_population (order : List NodeId)
    (hperm : order.Perm [0, 1, 2]) :
    (traverseGraphAndPopulateGraphicsObjects
      { nodeIds := order, connections := [⟨0, 0, 1, 0⟩, ⟨1, 0, 2, 0⟩] }
      emptyScene).nodeObjs.length = 3
    ∧ (traverseGraphAndPopulateGraphicsObjects
      { nodeIds := order, connections := [⟨0, 0, 1, 0⟩, ⟨1, 0, 2, 0⟩] }
      emptyScene).connObjs.length = 2 := by
  obtain ⟨a, b, c, rfl⟩ := List.length_eq_three.mp (by simpa using hperm.length_eq)
  have hsub := hperm.subset
  have ha : a ∈ ([0, 1, 2] : List Nat) := hsub (by simp)
  have hb : b ∈ ([0, 1, 2] : List Nat) := hsub (by simp)
  have hc : c ∈ ([0, 1, 2] : List Nat) := hsub (by simp)
  have hnd : ([a, b, c] : List Nat).Nodup := hperm.nodup_iff.mpr (by decide)
  simp only [List.mem_cons, List.not_mem_nil, or_false] at ha hb hc
  simp only [List.nodup_cons, List.mem_cons, List.not_mem_nil, or_false,
    not_or, List.nodup_nil, and_true] at hnd
  rcases ha with rfl | rfl | rfl <;> rcases hb with rfl | rfl | rfl <;>
    rcases hc with rfl | rfl | rfl <;> simp_all <;> decide

/-- Claim C4, witnessed at the enumeration order [2, 0, 1]. -/
theorem claim_C4_traversal_population_witness :
    (traverseGraphAndPopulateGraphicsObjects
      { nodeIds := [2, 0, 1], connections := [⟨0, 0, 1, 0⟩, ⟨1, 0, 2, 0⟩] }
      emptyScene).nodeObjs.length = 3
    ∧ (traverseGraphAndPopulateGraphicsObjects
      { nodeIds := [2, 0, 1], connections := [⟨0, 0, 1, 0⟩, ⟨1, 0, 2, 0⟩] }
      emptyScene).connObjs.length = 2 :=
  claim_C4_traversal_population [2, 0, 1] (by decide)

/-- Claim C5: promotion of a draft.  In a state where the draft slot holds a
draft begun from node `a`'s out-port 0, both endpoint node objects exist and
the confirmed connection id is new, processing the connection-created
notification leaves exactly one connection graphical object registered for
that id and no draft connection in the scene. -/
theorem claim_C5_draft_promotion (s : Scene) (a b : NodeId) (ip : PortIndex)
    (d : ConnectionId) (hdraft : s.drafts = [d]) (hout : d.outNodeId = a)
    (hport : d.outPortIndex = 0) (ha : a ∈ s.nodeObjs) (hb : b ∈ s.nodeObjs)
    (hnew : (⟨a, 0, b, ip⟩ : ConnectionId) ∉ s.connObjs) :
    (onConnectionCreated ⟨a, 0, b, ip⟩ s).connObjs.count ⟨a, 0, b, ip⟩ = 1
    ∧ (onConnectionCreated ⟨a, 0, b, ip⟩ s).drafts = [] := by
  unfold onConnectionCreated
  simp only [hnew, if_false, if_neg, ha, hb, and_self, if_true]
  constructor
  · simp [List.count_cons_self, List.count_eq_zero.mpr hnew]
  · rw [hdraft]
    simp [draftMatches, hout, hport]

/-- Claim C5, witnessed at a concrete scene: nodes 0 and 1 registered, a
draft begun from node 0's out-port 0, connection 0.out0→1.in0 confirmed. -/
theorem claim_C5_draft_promotion_witness :
    (onConnectionCreated ⟨0, 0, 1, 0⟩
      { nodeObjs := [0, 1], connObjs := [], drafts := [⟨0, 0, 7, 7⟩],
        orientation := .Horizontal,
        inconsistencies := 0 }).connObjs.count ⟨0, 0, 1, 0⟩ = 1
    ∧ (onConnectionCreated ⟨0, 0, 1, 0⟩
      { nodeObjs := [0, 1], connObjs := [], drafts := [⟨0, 0, 7, 7⟩],
        orientation := .Horizontal, inconsistencies := 0 }).drafts = [] :=
  claim_C5_draft_promotion
    { nodeObjs := [0, 1], connObjs := [], drafts := [⟨0, 0, 7, 7⟩],
      orientation := .Horizontal, inconsistencies := 0 }
    0 1 0 ⟨0, 0, 7, 7⟩ rfl rfl rfl (by decide) (by decide) (by decide)

/-- Claim C6: after `clearScene`, the lookup for any id — in particular any
previously-existing one — returns the not-found sentinel for both nodes and
connections: both registries are empty. -/
theorem claim_C6_clear_scene (s : Scene) (nodeId : NodeId)
    (cid : ConnectionId) :
    nodeGraphicsObject (clearScene s) nodeId = none
    ∧ connectionGraphicsObject (clearScene s) cid = none :=
  ⟨rfl, rfl⟩

/-- Claim C7: for every id absent from the registry, the lookups
`nodeGraphicsObject` and `connectionGraphicsObject` return the not-found
sentinel (`none`, embedding `nullptr`) rather than failing.  The lookups are
queries: they take the scene and return only the optional result, so the
registry state is unchanged by construction. -/
theorem claim_C7_lookup_absent (s : Scene) (nodeId : NodeId)
    (cid : ConnectionId) (hn : nodeId ∉ s.nodeObjs)
    (hc : cid ∉ s.connObjs) :
    nodeGraphicsObject s nodeId = none
    ∧ connectionGraphicsObject s cid = none := by
  constructor
  · apply List.find?_eq_none.mpr
    intro x hx
    simp only [decide_eq_true_eq]
    rintro rfl
    exact hn hx
  · apply List.find?_eq_none.mpr
    intro x hx
    simp only [decide_eq_true_eq]
    rintro rfl
    exact hc hx

/-- Claim C7, witnessed on a nonempty concrete scene and absent ids. -/
theorem claim_C7_lookup_absent_witness :
    nodeGraphicsObject
      { nodeObjs := [3], connObjs := [⟨3, 0, 3, 0⟩], drafts := [],
        orientation := .Horizontal, inconsistencies := 0 } 7 = none
    ∧ connectionGraphicsObject
      { nodeObjs := [3], connObjs := [⟨3, 0, 3, 0⟩], drafts := [],
        orientation := .Horizontal, inconsistencies := 0 } ⟨0, 0, 1, 0⟩ = none :=
  claim_C7_lookup_absent
    { nodeObjs := [3], connObjs := [⟨3, 0, 3, 0⟩], drafts := [],
      orientation := .Horizontal, inconsistencies := 0 }
    7 ⟨0, 0, 1, 0⟩ (by decide) (by decide)

/-- Claim C8: a connection-created notification whose id references an
endpoint node with no graphical object is skipped: no connection graphical
object is inserted for that id, the inconsistency is reported (counted), and
the registries and draft slot are otherwise unchanged. -/
theorem claim_C8_skip_missing_endpoint (s : Scene) (cid : ConnectionId)
    (hinv : Invariant s)
    (hmiss : cid.outNodeId ∉ s.nodeObjs ∨ cid.inNodeId ∉ s.nodeObjs) :
    (onConnectionCreated cid s).connObjs = s.connObjs
    ∧ (onConnectionCreated cid s).nodeObjs = s.nodeObjs
    ∧ (onConnectionCreated cid s).drafts = s.drafts
    ∧ (onConnectionCreated cid s).inconsistencies = s.inconsistencies + 1
    ∧ connectionGraphicsObject (onConnectionCreated cid s) cid = none := by
  have habs : cid ∉ s.connObjs := by
    intro hmem
    rcases hmiss with h | h
    · exact h (hinv.2.2.2 cid hmem).1
    · exact h (hinv.2.2.2 cid hmem).2
  have hend : ¬ (cid.outNodeId ∈ s.nodeObjs ∧ cid.inNodeId ∈ s.nodeObjs) := by
    rcases hmiss with h | h
    · exact fun hcontra => h hcontra.1
    · exact fun hcontra => h hcontra.2
  unfold onConnectionCreated
  simp only [habs, if_false, hend, if_neg]
  refine ⟨trivial, trivial, trivial, trivial, ?_⟩
  apply List.find?_eq_none.mpr
  intro x hx
  simp only [decide_eq_true_eq]
  rintro rfl
  exact habs hx

/-- Claim C8, witnessed at a concrete scene where the In-side endpoint node
object is missing. -/
theorem claim_C8_skip_missing_endpoint_witness :
    (onConnectionCreated ⟨0, 0, 1, 0⟩
      { nodeObjs := [0], connObjs := [], drafts := [],
        orientation := .Horizontal, inconsistencies := 0 }).connObjs = []
    ∧ (onConnectionCreated ⟨0, 0, 1, 0⟩
      { nodeObjs := [0], connObjs := [], drafts := [],
        orientation := .Horizontal, inconsistencies := 0 }).nodeObjs = [0]
    ∧ (onConnectionCreated ⟨0, 0, 1, 0⟩
      { nodeObjs := [0], connObjs := [], drafts := [],
        orientation := .Horizontal, inconsistencies := 0 }).drafts = []
    ∧ (onConnectionCreated ⟨0, 0, 1, 0⟩
      { nodeObjs := [0], connObjs := [], drafts := [],
        orientation := .Horizontal, inconsistencies := 0 }).inconsistencies = 0 + 1
    ∧ connectionGraphicsObject (onConnectionCreated ⟨0, 0, 1, 0⟩
      { nodeObjs := [0], connObjs := [], drafts := [],
        orientation := .Horizontal, inconsistencies := 0 }) ⟨0, 0, 1, 0⟩ = none :=
  claim_C8_skip_missing_endpoint
    { nodeObjs := [0], connObjs := [], drafts := [],
      orientation := .Horizontal, inconsistencies := 0 }
    ⟨0, 0, 1, 0⟩ (by decide) (by decide)

/-- Claim C9: `setOrientation` changes only the orientation flag; the key
sets of both registry maps, the draft slot and the inconsistency log are
exactly the same before and after the call — no graphical object is created
or destroyed. -/
theorem claim_C9_orientation_frame (s : Scene) (o : Orientation) :
    (setOrientation o s).nodeObjs = s.nodeObjs
    ∧ (setOrientation o s).connObjs = s.connObjs
    ∧ (setOrientation o s).drafts = s.drafts
    ∧ (setOrientation o s).inconsistencies = s.inconsistencies
    ∧ (setOrientation o s).orientation = o :=
  ⟨rfl, rfl, rfl, rfl, rfl⟩

/-- Claim C10: getter/setter round trip — immediately after
`setOrientation o`, the accessor `orientation()` (embedded as
`sceneOrientation`, whose body is the inline member read from the header)
returns `o`; the accessor takes the scene and returns only the flag, so it
changes no scene state by construction. -/
theorem claim_C10_orientation_roundtrip (s : Scene) (o : Orientation) :
    sceneOrientation (setOrientation o s) = o :=
  rfl

end NodeEditor
